import Mathlib

/-!
Shallow embedding of the open-weather Cloudflare worker (src/src/index.ts and
the two handler variants in src/unnamed/part_000), together with proofs of the
specification claims about the rate limiter, the CORS helper and the request
router.

Modelling conventions:
* JavaScript numbers that can be NaN are modelled as `Option Int` with `none`
  standing for NaN (`parseInt` of an unparsable string).
* The key-value namespace is a function store plus logs of the get and put
  calls, so that "no read / no write happened" is expressible.
* Time is the `now` parameter (seconds), `Date.now()/1000` in the source.
-/

namespace OW

/-- JavaScript `x || d` for a nullable string `x`: null and the empty string
are falsy. -/
def jsOrString (x : Option String) (d : String) : String :=
  match x with
  | none => d
  | some s => if s = "" then d else s

/-- Numeric value of a decimal digit character. -/
def digitVal (c : Char) : Nat := c.toNat - 48

/-- Leading run of decimal digits, `none` when there is no digit. -/
def parseDigitsJS (cs : List Char) : Option Nat :=
  let ds := cs.takeWhile Char.isDigit
  if ds = [] then none
  else some (ds.foldl (fun a c => a * 10 + digitVal c) 0)

/-- JavaScript whitespace skipped by `parseInt`. -/
def isJsSpace (c : Char) : Bool :=
  c = ' ' || c = '\t' || c = '\n' || c = '\r'

/-- Model of JavaScript `parseInt(s, 10)`: skip whitespace, optional sign,
longest digit run; `none` models NaN. -/
def parseIntJS (s : String) : Option Int :=
  match s.toList.dropWhile isJsSpace with
  | [] => none
  | c :: rest =>
      if c = '-' then (parseDigitsJS rest).map (fun n => -(n : Int))
      else if c = '+' then (parseDigitsJS rest).map (fun n => (n : Int))
      else (parseDigitsJS (c :: rest)).map (fun n => (n : Int))

/-- JavaScript `String(x)` on a number that may be NaN. -/
def jsNumToString (x : Option Int) : String :=
  match x with
  | none => "NaN"
  | some i => toString i

/-- JavaScript `x >= b` for a number `x` that may be NaN: any comparison with
NaN is false. -/
def jsGe (x : Option Int) (b : Int) : Bool :=
  match x with
  | none => false
  | some v => b ≤ v

/-- Key-value namespace: the stored map plus logs of every `get` key and every
`put` call (key, value, expirationTtl). -/
structure KV where
  store : String → Option String
  reads : List String
  writes : List (String × String × Nat)

/-- KV namespace with no keys and empty logs. -/
def KV.empty : KV :=
  { store := fun _ => none, reads := [], writes := [] }

/-- Model of `kv.get(k)`: returns the stored value and logs the read. -/
def KV.get (kv : KV) (k : String) : Option String × KV :=
  (kv.store k, { kv with reads := kv.reads ++ [k] })

/-- Model of `kv.put(k, v, \x7bexpirationTtl: ttl\x7d)`. -/
def KV.put (kv : KV) (k v : String) (ttl : Nat) : KV :=
  { store := fun q => if q = k then some v else kv.store q,
    reads := kv.reads,
    writes := kv.writes ++ [(k, v, ttl)] }

/-- Rate limit threshold of src/src/index.ts. -/
def RATE_LIMIT : Int := 10

/-- Window length in seconds (all variants). -/
def RATE_LIMIT_WINDOW : Nat := 60

/-- The counter key, `rate_limit:<ip>:<windowIndex>`. -/
def rlFullKey (ip : String) (w : Nat) : String :=
  "rate_limit:" ++ ip ++ ":" ++ toString w

/-- Decision record returned by `checkRateLimit`; `remaining = none` models a
NaN remaining count. -/
structure RateDecision where
  allowed : Bool
  remaining : Option Int
deriving DecidableEq, Repr

/-- The count derived from a raw read, source line
`const count = current ? parseInt(current, 10) : 0`: a null read and the
(falsy) empty string give 0, anything else goes through `parseInt` and may be
NaN (`none`). -/
def countOfRead (current : Option String) : Option Int :=
  match current with
  | none => some 0
  | some s => if s = "" then some 0 else parseIntJS s

/-- Embedding of `checkRateLimit(ip, kv)` with the threshold as a parameter
(10 in src/src/index.ts, 30 in the part_000 variants); `now` is
`Math.floor(Date.now()/1000)`. Mirrors the source line by line:
window key, composite counter key, read, falsy-or-parseInt count,
limit comparison, conditional put of `String(count+1)` with
`expirationTtl = RATE_LIMIT_WINDOW`. -/
def checkRateLimitWith (limit : Int) (ip : String) (kv : KV) (now : Nat) :
    RateDecision × KV :=
  let windowKey := now / RATE_LIMIT_WINDOW
  let fullKey := rlFullKey ip windowKey
  let g := KV.get kv fullKey
  let count := countOfRead g.1
  if jsGe count limit then
    ({ allowed := false, remaining := some 0 }, g.2)
  else
    ({ allowed := true, remaining := count.map (fun c => limit - c - 1) },
      g.2.put fullKey (jsNumToString (count.map (fun c => c + 1))) RATE_LIMIT_WINDOW)

/-- `checkRateLimit` as configured in src/src/index.ts (limit 10). -/
def checkRateLimit (ip : String) (kv : KV) (now : Nat) : RateDecision × KV :=
  checkRateLimitWith RATE_LIMIT ip kv now

/-- Sequential calls to `checkRateLimit` from one IP at the given times,
collecting the decisions and threading the store. -/
def runCalls (ip : String) (times : List Nat) (kv : KV) :
    List RateDecision × KV :=
  match times with
  | [] => ([], kv)
  | t :: ts =>
      let r := checkRateLimit ip kv t
      let rest := runCalls ip ts r.2
      (r.1 :: rest.1, rest.2)

/-- Sequential calls to `checkRateLimit` from arbitrary IPs at arbitrary
times, threading the store. -/
def runSeq (calls : List (String × Nat)) (kv : KV) : KV :=
  match calls with
  | [] => kv
  | c :: rest => runSeq rest (checkRateLimit c.1 kv c.2).2

/-- The allow-list of `getCorsHeaders` in src/unnamed/part_000. -/
def allowedOrigins : List String :=
  ["http://127.0.0.1:5500", "http://localhost:5500",
   "http://127.0.0.1:3000", "http://localhost:3000",
   "http://127.0.0.1:5173", "http://localhost:5173",
   "http://127.0.0.1:8080", "http://localhost:8080"]

/-- Embedding of `getCorsHeaders(origin)`: the JavaScript condition
`origin && allowedOrigins.includes(origin)` is truthy exactly when the header
is present, non-empty and in the allow-list. -/
def getCorsHeaders (origin : Option String) : List (String × String) :=
  let allowedOrigin :=
    match origin with
    | none => "*"
    | some o => if o ≠ "" ∧ o ∈ allowedOrigins then o else "*"
  [("Access-Control-Allow-Origin", allowedOrigin),
   ("Access-Control-Allow-Methods", "GET, POST, OPTIONS"),
   ("Access-Control-Allow-Headers", "Content-Type, Authorization"),
   ("Access-Control-Max-Age", "86400")]

/-- UTF-8 bytes of a code point, for percent-encoding. -/
def utf8Bytes (n : Nat) : List Nat :=
  if n < 128 then [n]
  else if n < 2048 then [192 + n / 64, 128 + n % 64]
  else if n < 65536 then [224 + n / 4096, 128 + (n / 64) % 64, 128 + n % 64]
  else [240 + n / 262144, 128 + (n / 4096) % 64, 128 + (n / 64) % 64, 128 + n % 64]

/-- Uppercase hexadecimal digit character. -/
def hexChar (n : Nat) : Char :=
  if n < 10 then Char.ofNat (48 + n) else Char.ofNat (55 + n)

/-- Percent-encoding of one byte, `%XY`. -/
def pctEncodeByte (b : Nat) : List Char :=
  [Char.ofNat 37, hexChar (b / 16), hexChar (b % 16)]

/-- Characters `encodeURIComponent` leaves unescaped:
alphanumerics and `- _ . ! ~ * ( )` and the apostrophe (code 39). -/
def uriUnreserved (c : Char) : Bool :=
  c.isAlphanum || c = Char.ofNat 45 || c = Char.ofNat 95 || c = Char.ofNat 46 ||
    c = Char.ofNat 33 || c = Char.ofNat 126 || c = Char.ofNat 42 ||
    c = Char.ofNat 39 || c = Char.ofNat 40 || c = Char.ofNat 41

/-- Model of JavaScript `encodeURIComponent`. -/
def encodeURIComponent (s : String) : String :=
  String.mk (s.toList.foldr
    (fun c acc =>
      (if uriUnreserved c then [c]
       else (utf8Bytes c.toNat).foldr (fun b a => pctEncodeByte b ++ a) []) ++ acc)
    [])

/-- The OpenWeatherMap URL built by the handler. -/
def weatherApiUrl (city apiKey : String) : String :=
  "https://api.openweathermap.org/data/2.5/weather?q=" ++ encodeURIComponent city ++
    "&appid=" ++ apiKey ++ "&units=metric&lang=zh_cn"

/-- Minimal JSON values, for response bodies. -/
inductive Json where
  | str (s : String)
  | num (n : Int)
  | bool (b : Bool)
  | null
  | arr (xs : List Json)
  | obj (fields : List (String × Json))

/-- Response body: `null` (empty) or a JSON document to stringify. -/
inductive Body where
  | empty
  | json (j : Json)

/-- An HTTP response: status, headers in insertion order, body. -/
structure HttpResponse where
  status : Nat
  headers : List (String × String)
  body : Body

/-- Inbound request as the handler observes it: method, pathname,
`searchParams.get("city")`, and the two headers it reads. -/
structure Request where
  method : String
  pathname : String
  cityParam : Option String
  cfConnectingIP : Option String
  origin : Option String

/-- Outcome of `fetch(apiUrl)`: `ok`, `status`, and the result of
`resp.json()` (`Except.error` models a thrown parse error). -/
structure Upstream where
  ok : Bool
  status : Nat
  body : Except String Json

/-- Handler environment: the outcome of `env.WEATHER_API_KEY.get()`
(`Except.error` models a thrown exception), the upstream fetch outcome, and
the current time in seconds. -/
structure Env where
  apiKeyGet : Except String String
  upstream : Upstream
  now : Nat

/-- CORS headers spread into a JSON response, then `Content-Type`. -/
def corsJsonHeaders (origin : Option String) : List (String × String) :=
  getCorsHeaders origin ++ [("Content-Type", "application/json")]

/-- Rate limit threshold of the src/unnamed/part_000 handler variants. -/
def WORKER_RATE_LIMIT : Int := 30

/-- The handler stage after the rate limiter allowed the request: pick the
city (`url.searchParams.get("city") || "Beijing"`), call the upstream, map a
non-ok status to 502 `\x7berror, status\x7d`, a JSON parse failure to the
top-level catch (500), and success to a 200 passthrough. The third component
records the URL of the upstream call when one is made. -/
def handleAllowed (req : Request) (env : Env) (apiKey : String)
    (remaining : Option Int) (kv : KV) : HttpResponse × KV × Option String :=
  let city := jsOrString req.cityParam "Beijing"
  let u := weatherApiUrl city apiKey
  if env.upstream.ok then
    match env.upstream.body with
    | .ok data =>
        (⟨200, corsJsonHeaders req.origin ++
            [("X-RateLimit-Limit", "30"),
             ("X-RateLimit-Remaining", jsNumToString remaining)],
          .json data⟩, kv, some u)
    | .error e =>
        (⟨500, corsJsonHeaders req.origin,
          .json (.obj [("error", .str "服务器内部错误"), ("message", .str e)])⟩,
         kv, some u)
  else
    (⟨502, corsJsonHeaders req.origin,
      .json (.obj [("error", .str "天气API请求失败"),
                   ("status", .num (env.upstream.status : Int))])⟩,
     kv, some u)

/-- The handler stage after the API key resolved: test read of key `abc`,
rate limit check (limit 30), 429 on denial, otherwise `handleAllowed`.
The source binds the limiter result once; the model repeats the pure call. -/
def handleWithKey (req : Request) (env : Env) (apiKey : String) (kv : KV) :
    HttpResponse × KV × Option String :=
  if (checkRateLimitWith WORKER_RATE_LIMIT (jsOrString req.cfConnectingIP "unknown")
        ((KV.get kv "abc").2) env.now).1.allowed then
    handleAllowed req env apiKey
      (checkRateLimitWith WORKER_RATE_LIMIT (jsOrString req.cfConnectingIP "unknown")
        ((KV.get kv "abc").2) env.now).1.remaining
      (checkRateLimitWith WORKER_RATE_LIMIT (jsOrString req.cfConnectingIP "unknown")
        ((KV.get kv "abc").2) env.now).2
  else
    (⟨429, corsJsonHeaders req.origin ++
        [("Retry-After", "60"), ("X-RateLimit-Limit", "30"),
         ("X-RateLimit-Remaining", "0")],
      .json (.obj [("error", .str "请求过于频繁，请稍后再试"),
                   ("retryAfter", .num 60)])⟩,
     (checkRateLimitWith WORKER_RATE_LIMIT (jsOrString req.cfConnectingIP "unknown")
        ((KV.get kv "abc").2) env.now).2, none)

/-- Embedding of the default-export `fetch` handler of the second
src/unnamed/part_000 variant (OPTIONS preflight, Secrets-Store key, KV test
read, active rate limiter, CORS on every response). Returns the response, the
final KV state, and the upstream URL when the upstream was called. -/
def handleFetch (req : Request) (env : Env) (kv : KV) :
    HttpResponse × KV × Option String :=
  if req.method = "OPTIONS" then
    (⟨204, getCorsHeaders req.origin, .empty⟩, kv, none)
  else
    match env.apiKeyGet with
    | .error msg =>
        (⟨500, corsJsonHeaders req.origin,
          .json (.obj [("error", .str "服务器配置错误：无法获取 API Key"),
                       ("message", .str msg)])⟩, kv, none)
    | .ok apiKey =>
        if apiKey = "" then
          (⟨500, corsJsonHeaders req.origin,
            .json (.obj [("error", .str "服务器配置错误：API Key 为空")])⟩,
           kv, none)
        else
          handleWithKey req env apiKey kv

/-- The decision sequence a fixed-window counter with limit 10 produces from a
starting count `c`: allowed with `remaining = 10 - c - 1` while `c < 10`, then
denied with `remaining = 0`. -/
def expectedDecs : Nat → Nat → List RateDecision
  | _, 0 => []
  | c, Nat.succ n =>
      (if c < 10 then RateDecision.mk true (some (10 - (c : Int) - 1))
       else RateDecision.mk false (some 0)) ::
        expectedDecs (if c < 10 then c + 1 else c) n

/-- KV namespace holding exactly one key. -/
def kvWith (k v : String) : KV :=
  { store := fun q => if q = k then some v else none, reads := [], writes := [] }

/-- Sample environment whose upstream fetch fails with status 404. -/
def envUpstream404 : Env :=
  { apiKeyGet := .ok "APIKEY",
    upstream := { ok := false, status := 404, body := .error "not json" },
    now := 0 }

/-- Sample environment whose upstream fetch succeeds. -/
def envUpstreamOk : Env :=
  { apiKeyGet := .ok "APIKEY",
    upstream := { ok := true, status := 200, body := .ok (.obj [("temp", .num 20)]) },
    now := 0 }

/-!
Theorems. First the rate-limiter lemmas and claims, then the CORS and router
claims.
-/

/-- Reading a key does not change the stored map. -/
theorem KV.get_store (kv : KV) (k : String) : ((KV.get kv k).2).store = kv.store := rfl

/-- The stored map after a put. -/
theorem KV.put_store (kv : KV) (k v : String) (ttl : Nat) (q : String) :
    (KV.put kv k v ttl).store q = if q = k then some v else kv.store q := rfl

/-- Unfolding of `checkRateLimitWith` as a single conditional over the count
read from the store. -/
theorem checkRateLimitWith_eq (limit : Int) (ip : String) (kv : KV) (now : Nat) :
    checkRateLimitWith limit ip kv now =
      (if jsGe (countOfRead (kv.store (rlFullKey ip (now / RATE_LIMIT_WINDOW)))) limit then
        ({ allowed := false, remaining := some 0 },
         { kv with reads := kv.reads ++ [rlFullKey ip (now / RATE_LIMIT_WINDOW)] })
      else
        ({ allowed := true,
           remaining := (countOfRead (kv.store (rlFullKey ip (now / RATE_LIMIT_WINDOW)))).map
             (fun c => limit - c - 1) },
         KV.put { kv with reads := kv.reads ++ [rlFullKey ip (now / RATE_LIMIT_WINDOW)] }
           (rlFullKey ip (now / RATE_LIMIT_WINDOW))
           (jsNumToString ((countOfRead (kv.store (rlFullKey ip (now / RATE_LIMIT_WINDOW)))).map
             (fun c => c + 1)))
           RATE_LIMIT_WINDOW)) := rfl

/-- A parsed count below the limit is admitted and the incremented count is
written back. -/
theorem checkRateLimitWith_allow (limit : Int) (ip : String) (kv : KV) (now : Nat) (c : Int)
    (hc : countOfRead (kv.store (rlFullKey ip (now / RATE_LIMIT_WINDOW))) = some c)
    (hlt : c < limit) :
    checkRateLimitWith limit ip kv now =
      ({ allowed := true, remaining := some (limit - c - 1) },
       KV.put { kv with reads := kv.reads ++ [rlFullKey ip (now / RATE_LIMIT_WINDOW)] }
         (rlFullKey ip (now / RATE_LIMIT_WINDOW))
         (jsNumToString (some (c + 1))) RATE_LIMIT_WINDOW) := by
  rw [checkRateLimitWith_eq, hc]
  simp [jsGe, not_le.2 hlt]

/-- A parsed count at or above the limit is denied and nothing is written. -/
theorem checkRateLimitWith_deny (limit : Int) (ip : String) (kv : KV) (now : Nat) (c : Int)
    (hc : countOfRead (kv.store (rlFullKey ip (now / RATE_LIMIT_WINDOW))) = some c)
    (hge : limit ≤ c) :
    checkRateLimitWith limit ip kv now =
      ({ allowed := false, remaining := some 0 },
       { kv with reads := kv.reads ++ [rlFullKey ip (now / RATE_LIMIT_WINDOW)] }) := by
  rw [checkRateLimitWith_eq, hc]
  simp [jsGe, hge]

/-- A NaN count (unparsable stored value) compares false against the limit, so
the request is admitted with NaN remaining and `"NaN"` is written back. -/
theorem checkRateLimitWith_nan (limit : Int) (ip : String) (kv : KV) (now : Nat)
    (hc : countOfRead (kv.store (rlFullKey ip (now / RATE_LIMIT_WINDOW))) = none) :
    checkRateLimitWith limit ip kv now =
      ({ allowed := true, remaining := none },
       KV.put { kv with reads := kv.reads ++ [rlFullKey ip (now / RATE_LIMIT_WINDOW)] }
         (rlFullKey ip (now / RATE_LIMIT_WINDOW)) "NaN" RATE_LIMIT_WINDOW) := by
  rw [checkRateLimitWith_eq, hc]
  simp [jsGe, jsNumToString]

/-- A present, non-empty, parsable value gives its parsed count. -/
theorem countOfRead_parse (v : String) (c : Int) (hne : v ≠ "")
    (hp : parseIntJS v = some c) : countOfRead (some v) = some c := by
  simp [countOfRead, hne, hp]

/-- Print/parse roundtrip for the counter values the limiter can write (the
counts stay at most 10, see the invariant claim). -/
theorem jsRoundtrip : ∀ n : Nat, n < 11 →
    jsNumToString (some (n : Int)) ≠ "" ∧
    parseIntJS (jsNumToString (some (n : Int))) = some (n : Int) := by decide

/-- The empty string does not parse. -/
theorem parseIntJS_empty : parseIntJS "" = none := rfl

/-- Characterisation of a run of same-window calls: starting from a stored
count `c ≤ 10` (absent key for `c = 0`), the decisions are exactly
`expectedDecs c`. -/
theorem runCalls_expected (ip : String) (w : Nat) (times : List Nat) :
    ∀ (kv : KV) (c : Nat),
      (∀ t ∈ times, t / RATE_LIMIT_WINDOW = w) → c ≤ 10 →
      kv.store (rlFullKey ip w) =
        (if c = 0 then none else some (jsNumToString (some (c : Int)))) →
      (runCalls ip times kv).1 = expectedDecs c times.length := by
  induction times with
  | nil => intro kv c _ _ _; rfl
  | cons t ts ih =>
      intro kv c hw hc hstore
      have htw : t / RATE_LIMIT_WINDOW = w := hw t (List.mem_cons_self t ts)
      have hws : ∀ s ∈ ts, s / RATE_LIMIT_WINDOW = w :=
        fun s hs => hw s (List.mem_cons_of_mem t hs)
      have hcount : countOfRead (kv.store (rlFullKey ip (t / RATE_LIMIT_WINDOW)))
          = some (c : Int) := by
        rw [htw, hstore]
        by_cases h0 : c = 0
        · subst h0; rfl
        · rw [if_neg h0]
          exact countOfRead_parse _ _ (jsRoundtrip c (by omega)).1 (jsRoundtrip c (by omega)).2
      have hrc : runCalls ip (t :: ts) kv =
          ((checkRateLimit ip kv t).1 :: (runCalls ip ts (checkRateLimit ip kv t).2).1,
           (runCalls ip ts (checkRateLimit ip kv t).2).2) := rfl
      by_cases hlt : c < 10
      · have hstep : checkRateLimit ip kv t =
            ({ allowed := true, remaining := some (RATE_LIMIT - (c : Int) - 1) },
             KV.put { kv with reads := kv.reads ++ [rlFullKey ip (t / RATE_LIMIT_WINDOW)] }
               (rlFullKey ip (t / RATE_LIMIT_WINDOW))
               (jsNumToString (some ((c : Int) + 1))) RATE_LIMIT_WINDOW) := by
          simp only [checkRateLimit]
          exact checkRateLimitWith_allow RATE_LIMIT ip kv t (c : Int) hcount
            (by rw [show RATE_LIMIT = (10 : Int) from rfl]; exact_mod_cast hlt)
        have hcast : ((c : Int) + 1) = ((c + 1 : Nat) : Int) := by push_cast; ring
        have htail := ih (checkRateLimit ip kv t).2 (c + 1) hws (by omega) (by
          rw [hstep]
          rw [if_neg (Nat.succ_ne_zero c)]
          rw [KV.put_store, htw, if_pos rfl, hcast])
        rw [hstep] at htail
        rw [hrc]
        simp only [List.length_cons]
        rw [expectedDecs, if_pos hlt, if_pos hlt]
        rw [hstep]
        exact congrArg₂ List.cons (by rw [show RATE_LIMIT = (10 : Int) from rfl]) htail
      · have hc10 : c = 10 := by omega
        have hstep : checkRateLimit ip kv t =
            ({ allowed := false, remaining := some 0 },
             { kv with reads := kv.reads ++ [rlFullKey ip (t / RATE_LIMIT_WINDOW)] }) := by
          simp only [checkRateLimit]
          exact checkRateLimitWith_deny RATE_LIMIT ip kv t (c : Int) hcount
            (by rw [show RATE_LIMIT = (10 : Int) from rfl, hc10]; norm_num)
        have htail := ih (checkRateLimit ip kv t).2 c hws hc (by rw [hstep]; exact hstore)
        rw [hstep] at htail
        rw [hrc]
        simp only [List.length_cons]
        rw [expectedDecs, if_neg hlt, if_neg hlt]
        rw [hstep]
        exact congrArg₂ List.cons rfl htail

/-- Index formula for `expectedDecs`. -/
theorem expectedDecs_get : ∀ (n c i : Nat), i < n →
    (expectedDecs c n).get? i =
      some (if c + i < 10 then RateDecision.mk true (some (10 - ((c + i : Nat) : Int) - 1))
            else RateDecision.mk false (some 0)) := by
  intro n
  induction n with
  | zero => intro c i h; omega
  | succ n ih =>
      intro c i hi
      cases i with
      | zero =>
          rw [expectedDecs]
          simp only [List.get?_cons_zero, Nat.add_zero]
      | succ i =>
          have hstepeq : (expectedDecs c (n + 1)).get? (i + 1) =
              (expectedDecs (if c < 10 then c + 1 else c) n).get? i := by
            rw [expectedDecs]; exact List.get?_cons_succ
          rw [hstepeq, ih _ i (by omega)]
          by_cases hcon : c < 10
          · rw [if_pos hcon]
            have h2 : c + 1 + i = c + (i + 1) := by omega
            rw [h2]
          · rw [if_neg hcon]
            rw [if_neg (by omega : ¬ c + i < 10), if_neg (by omega : ¬ c + (i + 1) < 10)]

/-- Claim C1: for any IP and any sequence of sequential calls whose times fall
in one window `w`, starting with the counter key absent, the Nth call
(1-indexed, N at most the limit 10) is allowed with `remaining = LIMIT - N`,
and the 11th call is denied with `remaining = 0`. -/
theorem claim1_window_sequence (ip : String) (w : Nat) (times : List Nat) (kv : KV) (N : Nat)
    (hw : ∀ t ∈ times, t / RATE_LIMIT_WINDOW = w)
    (habs : kv.store (rlFullKey ip w) = none)
    (h1 : 1 ≤ N) (h2 : N ≤ 11) (hlen : N ≤ times.length) :
    (runCalls ip times kv).1.get? (N - 1) =
      some (if N ≤ 10 then { allowed := true, remaining := some (RATE_LIMIT - (N : Int)) }
            else { allowed := false, remaining := some 0 }) := by
  rw [runCalls_expected ip w times kv 0 hw (by omega) (by simpa using habs)]
  rw [expectedDecs_get times.length 0 (N - 1) (by omega)]
  by_cases hN : N ≤ 10
  · rw [if_pos (show 0 + (N - 1) < 10 by omega), if_pos hN]
    have : (10 : Int) - ((0 + (N - 1) : Nat) : Int) - 1 = RATE_LIMIT - (N : Int) := by
      rw [show RATE_LIMIT = (10 : Int) from rfl]
      omega
    rw [this]
  · rw [if_neg (show ¬ 0 + (N - 1) < 10 by omega), if_neg hN]

/-- Witness for C1 at a concrete input: the 11th call of a same-window burst
is denied with zero remaining. -/
theorem claim1_window_sequence_witness :
    (runCalls "203.0.113.7" [60, 60, 60, 60, 60, 60, 60, 60, 60, 60, 60] KV.empty).1.get? 10 =
      some { allowed := false, remaining := some 0 } := by
  have h := claim1_window_sequence "203.0.113.7" 1
    [60, 60, 60, 60, 60, 60, 60, 60, 60, 60, 60] KV.empty 11
    (by decide) rfl (by decide) (by decide) (by decide)
  simpa using h

/-- Claim C2 counterexample: with the unparsable value `"abc"` stored under
the counter key, the limiter does not behave as for count 0: the remaining
count is NaN rather than `10 - 0 - 1 = 9`, and `"NaN"` rather than `"1"` is
written back (compare the absent-key call on the same input). -/
theorem claim2_counterexample :
    (checkRateLimit "1.2.3.4" (kvWith (rlFullKey "1.2.3.4" 0) "abc") 0).1.remaining = none ∧
    (checkRateLimit "1.2.3.4" (kvWith (rlFullKey "1.2.3.4" 0) "abc") 0).2.store
      (rlFullKey "1.2.3.4" 0) = some "NaN" ∧
    (checkRateLimit "1.2.3.4" KV.empty 0).1.remaining = some 9 ∧
    (checkRateLimit "1.2.3.4" KV.empty 0).2.store (rlFullKey "1.2.3.4" 0) = some "1" ∧
    (none : Option Int) ≠ some 9 := by
  refine ⟨by decide, by decide, by decide, by decide, by decide⟩

/-- Claim C2 (amended): a missing value reads as count 0, and so does a stored
empty string (JavaScript falsiness); a non-empty unparsable value instead
reads as NaN, which fails the limit comparison, so the request is allowed
with NaN remaining and the string `"NaN"` is written back. -/
theorem claim2_read_semantics (ip : String) (kv : KV) (now : Nat) :
    (kv.store (rlFullKey ip (now / RATE_LIMIT_WINDOW)) = none →
      (checkRateLimit ip kv now).1 = { allowed := true, remaining := some (RATE_LIMIT - 1) } ∧
      (checkRateLimit ip kv now).2.store (rlFullKey ip (now / RATE_LIMIT_WINDOW)) = some "1") ∧
    (kv.store (rlFullKey ip (now / RATE_LIMIT_WINDOW)) = some "" →
      (checkRateLimit ip kv now).1 = { allowed := true, remaining := some (RATE_LIMIT - 1) } ∧
      (checkRateLimit ip kv now).2.store (rlFullKey ip (now / RATE_LIMIT_WINDOW)) = some "1") ∧
    (∀ v, kv.store (rlFullKey ip (now / RATE_LIMIT_WINDOW)) = some v → v ≠ "" →
      parseIntJS v = none →
      (checkRateLimit ip kv now).1 = { allowed := true, remaining := none } ∧
      (checkRateLimit ip kv now).2.store (rlFullKey ip (now / RATE_LIMIT_WINDOW)) = some "NaN") := by
  refine ⟨?_, ?_, ?_⟩
  · intro h
    have hcount : countOfRead (kv.store (rlFullKey ip (now / RATE_LIMIT_WINDOW)))
        = some 0 := by rw [h]; rfl
    have hstep := checkRateLimitWith_allow RATE_LIMIT ip kv now 0 hcount (by decide)
    simp only [checkRateLimit]
    rw [hstep, KV.put_store, if_pos rfl]
    exact ⟨by norm_num, by norm_num [jsNumToString]; rfl⟩
  · intro h
    have hcount : countOfRead (kv.store (rlFullKey ip (now / RATE_LIMIT_WINDOW)))
        = some 0 := by rw [h]; rfl
    have hstep := checkRateLimitWith_allow RATE_LIMIT ip kv now 0 hcount (by decide)
    simp only [checkRateLimit]
    rw [hstep, KV.put_store, if_pos rfl]
    exact ⟨by norm_num, by norm_num [jsNumToString]; rfl⟩
  · intro v hv hne hp
    have hcount : countOfRead (kv.store (rlFullKey ip (now / RATE_LIMIT_WINDOW)))
        = none := by rw [hv]; simp [countOfRead, hne, hp]
    have hstep := checkRateLimitWith_nan RATE_LIMIT ip kv now hcount
    simp only [checkRateLimit]
    rw [hstep, KV.put_store, if_pos rfl]
    exact ⟨rfl, rfl⟩

/-- Witness for the amended C2 at concrete inputs: an absent key and the
stored value `"abc"`. -/
theorem claim2_read_semantics_witness :
    ((checkRateLimit "a" KV.empty 0).1 = { allowed := true, remaining := some (RATE_LIMIT - 1) } ∧
      (checkRateLimit "a" KV.empty 0).2.store (rlFullKey "a" 0) = some "1") ∧
    ((checkRateLimit "a" (kvWith (rlFullKey "a" 0) "abc") 0).1 =
        { allowed := true, remaining := none } ∧
      (checkRateLimit "a" (kvWith (rlFullKey "a" 0) "abc") 0).2.store (rlFullKey "a" 0) =
        some "NaN") :=
  ⟨(claim2_read_semantics "a" KV.empty 0).1 rfl,
   (claim2_read_semantics "a" (kvWith (rlFullKey "a" 0) "abc") 0).2.2 "abc" (by decide)
     (by decide) (by decide)⟩

/-- Claim C3: when the stored count for the current key is at or above the
limit, every call in that window is denied with zero remaining, the stored
map is unchanged and no put is issued, over any number of repeated calls. -/
theorem claim3_denied_no_write (ip : String) (w : Nat) (times : List Nat) (kv : KV)
    (v : String) (c : Int)
    (hw : ∀ t ∈ times, t / RATE_LIMIT_WINDOW = w)
    (hv : kv.store (rlFullKey ip w) = some v)
    (hc : parseIntJS v = some c) (hge : RATE_LIMIT ≤ c) :
    (runCalls ip times kv).2.store = kv.store ∧
    (runCalls ip times kv).2.writes = kv.writes ∧
    ∀ d ∈ (runCalls ip times kv).1, d = { allowed := false, remaining := some 0 } := by
  induction times generalizing kv with
  | nil => exact ⟨rfl, rfl, by intro d hd; simp [runCalls] at hd⟩
  | cons t ts ih =>
      have hne : v ≠ "" := by rintro rfl; rw [parseIntJS_empty] at hc; exact Option.noConfusion hc
      have hcount : countOfRead (kv.store (rlFullKey ip (t / RATE_LIMIT_WINDOW))) = some c := by
        rw [hw t (List.mem_cons_self t ts), hv]
        exact countOfRead_parse v c hne hc
      have hstep : checkRateLimit ip kv t =
          ({ allowed := false, remaining := some 0 },
           { kv with reads := kv.reads ++ [rlFullKey ip (t / RATE_LIMIT_WINDOW)] }) := by
        simp only [checkRateLimit]
        exact checkRateLimitWith_deny RATE_LIMIT ip kv t c hcount hge
      have hrc : runCalls ip (t :: ts) kv =
          ((checkRateLimit ip kv t).1 :: (runCalls ip ts (checkRateLimit ip kv t).2).1,
           (runCalls ip ts (checkRateLimit ip kv t).2).2) := rfl
      obtain ⟨hstore, hwrites, hdec⟩ :=
        ih { kv with reads := kv.reads ++ [rlFullKey ip (t / RATE_LIMIT_WINDOW)] }
          (fun s hs => hw s (List.mem_cons_of_mem t hs)) hv
      refine ⟨?_, ?_, ?_⟩
      · rw [hrc]; simp only; rw [hstep]; exact hstore
      · rw [hrc]; simp only; rw [hstep]; exact hwrites
      · rw [hrc]; simp only
        intro d hd
        rw [hstep] at hd
        rcases List.mem_cons.1 hd with h | h
        · exact h
        · exact hdec d h

/-- Witness for C3 at a concrete input: a stored count of 10 in window 0 and
three repeated calls. -/
theorem claim3_denied_no_write_witness :
    (runCalls "a" [0, 1, 59] (kvWith (rlFullKey "a" 0) "10")).2.store =
      (kvWith (rlFullKey "a" 0) "10").store ∧
    (runCalls "a" [0, 1, 59] (kvWith (rlFullKey "a" 0) "10")).2.writes = [] ∧
    ∀ d ∈ (runCalls "a" [0, 1, 59] (kvWith (rlFullKey "a" 0) "10")).1,
      d = { allowed := false, remaining := some 0 } := by
  have h := claim3_denied_no_write "a" 0 [0, 1, 59] (kvWith (rlFullKey "a" 0) "10") "10" 10
    (by decide) (by decide) (by decide) (by decide)
  exact ⟨h.1, h.2.1, h.2.2⟩

/-- Claim C4: a call whose time falls in window `w + 1` reads the key of
window `w + 1`; when that key is absent the call evaluates against count 0
(allowed, `remaining = LIMIT - 1`, writes `"1"`), regardless of any count
stored under the window-`w` key. -/
theorem claim4_window_rollover (ip : String) (kv : KV) (w t : Nat) (v : String)
    (ht : t / RATE_LIMIT_WINDOW = w + 1)
    (habs : kv.store (rlFullKey ip (w + 1)) = none)
    (hold : kv.store (rlFullKey ip w) = some v) :
    (checkRateLimit ip kv t).1 = { allowed := true, remaining := some (RATE_LIMIT - 1) } ∧
    (checkRateLimit ip kv t).2.store (rlFullKey ip (w + 1)) = some "1" := by
  have hcount : countOfRead (kv.store (rlFullKey ip (t / RATE_LIMIT_WINDOW))) = some 0 := by
    rw [ht, habs]; rfl
  have hstep := checkRateLimitWith_allow RATE_LIMIT ip kv t 0 hcount (by decide)
  simp only [checkRateLimit]
  rw [hstep, KV.put_store, ht, if_pos rfl]
  exact ⟨by norm_num, by norm_num [jsNumToString]; rfl⟩

/-- Witness for C4 at a concrete input: window 0 holds count 10, the call at
time 60 lands in window 1 and is admitted as the first of its window. -/
theorem claim4_window_rollover_witness :
    (checkRateLimit "a" (kvWith (rlFullKey "a" 0) "10") 60).1 =
      { allowed := true, remaining := some (RATE_LIMIT - 1) } ∧
    (checkRateLimit "a" (kvWith (rlFullKey "a" 0) "10") 60).2.store (rlFullKey "a" 1) =
      some "1" :=
  claim4_window_rollover "a" (kvWith (rlFullKey "a" 0) "10") 0 60 "10"
    (by decide) (by decide) (by decide)

/-- One limiter call preserves the counter invariant: every stored value
parses to an integer between 0 and the limit 10. -/
theorem checkRateLimit_inv (ip : String) (kv : KV) (t : Nat)
    (h : ∀ k v, kv.store k = some v → ∃ n : Nat, n ≤ 10 ∧ parseIntJS v = some (n : Int)) :
    ∀ k v, (checkRateLimit ip kv t).2.store k = some v →
      ∃ n : Nat, n ≤ 10 ∧ parseIntJS v = some (n : Int) := by
  cases hread : kv.store (rlFullKey ip (t / RATE_LIMIT_WINDOW)) with
  | none =>
      have hcount : countOfRead (kv.store (rlFullKey ip (t / RATE_LIMIT_WINDOW)))
          = some 0 := by rw [hread]; rfl
      have hstep := checkRateLimitWith_allow RATE_LIMIT ip kv t 0 hcount (by decide)
      intro k v hkv
      simp only [checkRateLimit] at hkv
      rw [hstep, KV.put_store] at hkv
      by_cases hk : k = rlFullKey ip (t / RATE_LIMIT_WINDOW)
      · rw [if_pos hk] at hkv
        refine ⟨1, by omega, ?_⟩
        rw [← Option.some_inj.1 hkv]
        exact (jsRoundtrip 1 (by omega)).2
      · rw [if_neg hk] at hkv
        exact h k v hkv
  | some s =>
      obtain ⟨n, hn10, hpn⟩ := h _ s hread
      have hne : s ≠ "" := by
        rintro rfl; rw [parseIntJS_empty] at hpn; exact Option.noConfusion hpn
      have hcount : countOfRead (kv.store (rlFullKey ip (t / RATE_LIMIT_WINDOW)))
          = some (n : Int) := by rw [hread]; exact countOfRead_parse s _ hne hpn
      by_cases hlt : n < 10
      · have hstep := checkRateLimitWith_allow RATE_LIMIT ip kv t (n : Int) hcount
          (by rw [show RATE_LIMIT = (10 : Int) from rfl]; exact_mod_cast hlt)
        intro k v hkv
        simp only [checkRateLimit] at hkv
        rw [hstep, KV.put_store] at hkv
        by_cases hk : k = rlFullKey ip (t / RATE_LIMIT_WINDOW)
        · rw [if_pos hk] at hkv
          refine ⟨n + 1, by omega, ?_⟩
          rw [← Option.some_inj.1 hkv]
          have hcast : ((n : Int) + 1) = ((n + 1 : Nat) : Int) := by push_cast; ring
          rw [hcast]
          exact (jsRoundtrip (n + 1) (by omega)).2
        · rw [if_neg hk] at hkv
          exact h k v hkv
      · have hstep := checkRateLimitWith_deny RATE_LIMIT ip kv t (n : Int) hcount
          (by rw [show RATE_LIMIT = (10 : Int) from rfl]; exact_mod_cast Nat.le_of_not_lt hlt)
        intro k v hkv
        simp only [checkRateLimit] at hkv
        rw [hstep] at hkv
        exact h k v hkv

/-- Any sequential run of limiter calls preserves the counter invariant. -/
theorem runSeq_inv (calls : List (String × Nat)) :
    ∀ kv : KV,
      (∀ k v, kv.store k = some v → ∃ n : Nat, n ≤ 10 ∧ parseIntJS v = some (n : Int)) →
      ∀ k v, (runSeq calls kv).store k = some v →
        ∃ n : Nat, n ≤ 10 ∧ parseIntJS v = some (n : Int) := by
  induction calls with
  | nil => intro kv h; exact h
  | cons c rest ih => intro kv h; exact ih _ (checkRateLimit_inv c.1 kv c.2 h)

/-- Claim C8: starting from an empty store, after any sequence of sequential
limiter calls every stored counter value is a string that parses to a
non-negative integer at most the limit 10. -/
theorem claim8_counter_bounded (calls : List (String × Nat)) (kv : KV)
    (h0 : ∀ k, kv.store k = none) :
    ∀ k v, (runSeq calls kv).store k = some v →
      ∃ n : Nat, n ≤ 10 ∧ parseIntJS v = some (n : Int) :=
  runSeq_inv calls kv (fun k v hkv => absurd hkv (by rw [h0 k]; exact Option.noConfusion))

/-- Witness for C8 at a concrete input: after two calls from the same IP in
one window the stored value is `"2"`, which parses to 2 and is at most 10. -/
theorem claim8_counter_bounded_witness :
    ∃ n : Nat, n ≤ 10 ∧ parseIntJS "2" = some (n : Int) :=
  claim8_counter_bounded [("a", 0), ("a", 30)] KV.empty (fun _ => rfl)
    (rlFullKey "a" 0) "2" (by decide)

/-- Claim C7: the CORS headers echo the request origin exactly for the eight
allow-listed loopback origins, use the wildcard for every other and for an
absent origin, and fix the methods, headers and max-age values. -/
theorem claim7_cors_headers :
    (∀ o : String, o ∈ allowedOrigins →
      getCorsHeaders (some o) =
        [("Access-Control-Allow-Origin", o),
         ("Access-Control-Allow-Methods", "GET, POST, OPTIONS"),
         ("Access-Control-Allow-Headers", "Content-Type, Authorization"),
         ("Access-Control-Max-Age", "86400")]) ∧
    (∀ o : String, o ∉ allowedOrigins →
      getCorsHeaders (some o) =
        [("Access-Control-Allow-Origin", "*"),
         ("Access-Control-Allow-Methods", "GET, POST, OPTIONS"),
         ("Access-Control-Allow-Headers", "Content-Type, Authorization"),
         ("Access-Control-Max-Age", "86400")]) ∧
    getCorsHeaders none =
      [("Access-Control-Allow-Origin", "*"),
       ("Access-Control-Allow-Methods", "GET, POST, OPTIONS"),
       ("Access-Control-Allow-Headers", "Content-Type, Authorization"),
       ("Access-Control-Max-Age", "86400")] ∧
    allowedOrigins =
      ["http://127.0.0.1:5500", "http://localhost:5500",
       "http://127.0.0.1:3000", "http://localhost:3000",
       "http://127.0.0.1:5173", "http://localhost:5173",
       "http://127.0.0.1:8080", "http://localhost:8080"] := by
  refine ⟨?_, ?_, rfl, rfl⟩
  · intro o ho
    have hne : o ≠ "" := by
      rintro rfl; revert ho; decide
    simp only [getCorsHeaders]
    rw [if_pos ⟨hne, ho⟩]
  · intro o ho
    simp only [getCorsHeaders]
    rw [if_neg (fun hcon => ho hcon.2)]

/-- Witness for C7 at concrete origins: an allow-listed origin is echoed, an
unknown origin gets the wildcard. -/
theorem claim7_cors_headers_witness :
    getCorsHeaders (some "http://localhost:5173") =
      [("Access-Control-Allow-Origin", "http://localhost:5173"),
       ("Access-Control-Allow-Methods", "GET, POST, OPTIONS"),
       ("Access-Control-Allow-Headers", "Content-Type, Authorization"),
       ("Access-Control-Max-Age", "86400")] ∧
    getCorsHeaders (some "http://evil.example") =
      [("Access-Control-Allow-Origin", "*"),
       ("Access-Control-Allow-Methods", "GET, POST, OPTIONS"),
       ("Access-Control-Allow-Headers", "Content-Type, Authorization"),
       ("Access-Control-Max-Age", "86400")] :=
  ⟨claim7_cors_headers.1 "http://localhost:5173" (by decide),
   claim7_cors_headers.2.1 "http://evil.example" (by decide)⟩

/-- Whenever `handleAllowed` runs, the upstream is called, with the URL built
from the resolved city. -/
theorem handleAllowed_upstream (req : Request) (env : Env) (apiKey : String)
    (remaining : Option Int) (kv : KV) :
    (handleAllowed req env apiKey remaining kv).2.2 =
      some (weatherApiUrl (jsOrString req.cityParam "Beijing") apiKey) := by
  cases hb : env.upstream.body <;> by_cases hok : env.upstream.ok <;>
    simp [handleAllowed, hok, hb]

/-- With a failed upstream fetch, `handleAllowed` returns the 502 response. -/
theorem handleAllowed_notOk (req : Request) (env : Env) (apiKey : String)
    (remaining : Option Int) (kv : KV) (hok : env.upstream.ok = false) :
    handleAllowed req env apiKey remaining kv =
      ({ status := 502, headers := corsJsonHeaders req.origin,
         body := .json (.obj [("error", .str "天气API请求失败"),
                              ("status", .num (env.upstream.status : Int))]) },
       kv, some (weatherApiUrl (jsOrString req.cityParam "Beijing") apiKey)) := by
  simp [handleAllowed, hok]

/-- If the handler called the upstream at all, it reached `handleAllowed`
with the successfully resolved API key. -/
theorem handleFetch_call (req : Request) (env : Env) (kv : KV) (u : String)
    (hcall : (handleFetch req env kv).2.2 = some u) :
    ∃ apiKey remaining kv2, env.apiKeyGet = .ok apiKey ∧
      handleFetch req env kv = handleAllowed req env apiKey remaining kv2 := by
  by_cases hm : req.method = "OPTIONS"
  · simp [handleFetch, hm] at hcall
  · cases hk : env.apiKeyGet with
    | error m => simp [handleFetch, hm, hk] at hcall
    | ok key =>
        by_cases hke : key = ""
        · simp [handleFetch, hm, hk, hke] at hcall
        · have hunf : handleFetch req env kv = handleWithKey req env key kv := by
            simp [handleFetch, hm, hk, hke]
          rw [hunf] at hcall ⊢
          unfold handleWithKey at hcall ⊢
          by_cases hal : (checkRateLimitWith WORKER_RATE_LIMIT
              (jsOrString req.cfConnectingIP "unknown") ((KV.get kv "abc").2) env.now).1.allowed
          · rw [if_pos hal]
            exact ⟨key, _, _, rfl, rfl⟩
          · rw [if_neg hal] at hcall
            simp at hcall

/-- Claim C5: when the upstream fetch returns a non-success status, the
handler responds 502 with a JSON body carrying an `error` field and a
`status` field equal to the upstream status (given the upstream was actually
called, i.e. the request was not short-circuited earlier). -/
theorem claim5_upstream_error (req : Request) (env : Env) (kv : KV) (u : String)
    (hok : env.upstream.ok = false)
    (hcall : (handleFetch req env kv).2.2 = some u) :
    (handleFetch req env kv).1.status = 502 ∧
    (handleFetch req env kv).1.body =
      Body.json (.obj [("error", .str "天气API请求失败"),
                       ("status", .num (env.upstream.status : Int))]) := by
  obtain ⟨key, r, kv2, _, heq⟩ := handleFetch_call req env kv u hcall
  rw [heq, handleAllowed_notOk req env key r kv2 hok]
  exact ⟨rfl, rfl⟩

/-- Witness for C5 at a concrete input: upstream status 404 becomes a 502
JSON response carrying status 404. -/
theorem claim5_upstream_error_witness :
    (handleFetch ⟨"GET", "/", some "Shanghai", some "9.9.9.9", none⟩
      envUpstream404 KV.empty).1.status = 502 ∧
    (handleFetch ⟨"GET", "/", some "Shanghai", some "9.9.9.9", none⟩
      envUpstream404 KV.empty).1.body =
      Body.json (.obj [("error", .str "天气API请求失败"), ("status", .num 404)]) :=
  claim5_upstream_error ⟨"GET", "/", some "Shanghai", some "9.9.9.9", none⟩
    envUpstream404 KV.empty (weatherApiUrl "Shanghai" "APIKEY") rfl rfl

/-- Claim C6: an OPTIONS request gets 204 with the CORS headers and an empty
body, the KV state is returned untouched (no read and no write logged), and
no upstream call is recorded. -/
theorem claim6_options_preflight (req : Request) (env : Env) (kv : KV)
    (h : req.method = "OPTIONS") :
    handleFetch req env kv =
      ({ status := 204, headers := getCorsHeaders req.origin, body := .empty },
       kv, none) := by
  simp [handleFetch, h]

/-- Witness for C6 at a concrete input. -/
theorem claim6_options_preflight_witness :
    handleFetch ⟨"OPTIONS", "/", none, none, some "http://evil.example"⟩
        envUpstreamOk KV.empty =
      ({ status := 204, headers := getCorsHeaders (some "http://evil.example"),
         body := .empty }, KV.empty, none) :=
  claim6_options_preflight ⟨"OPTIONS", "/", none, none, some "http://evil.example"⟩
    envUpstreamOk KV.empty rfl

/-- Claim C9: a GET of the root with no `city` query parameter that reaches
the upstream invokes it with city `"Beijing"` percent-encoded into the URL. -/
theorem claim9_default_city (req : Request) (env : Env) (kv : KV) (key u : String)
    (hm : req.method = "GET") (hp : req.pathname = "/")
    (hc : req.cityParam = none) (hk : env.apiKeyGet = .ok key)
    (hcall : (handleFetch req env kv).2.2 = some u) :
    u = weatherApiUrl "Beijing" key := by
  obtain ⟨key2, r, kv2, hkey2, heq⟩ := handleFetch_call req env kv u hcall
  rw [hk] at hkey2
  injection hkey2 with hkk
  subst hkk
  rw [heq, handleAllowed_upstream] at hcall
  replace hcall := Option.some_inj.1 hcall
  rw [← hcall, hc]
  exact rfl

/-- Witness for C9 at a concrete input: the upstream URL of a cityless GET. -/
theorem claim9_default_city_witness :
    (handleFetch ⟨"GET", "/", none, none, none⟩ envUpstreamOk KV.empty).2.2 =
      some (weatherApiUrl "Beijing" "APIKEY") ∧
    weatherApiUrl "Beijing" "APIKEY" = weatherApiUrl "Beijing" "APIKEY" :=
  ⟨rfl, claim9_default_city ⟨"GET", "/", none, none, none⟩ envUpstreamOk KV.empty
    "APIKEY" (weatherApiUrl "Beijing" "APIKEY") rfl rfl rfl rfl rfl⟩

/-- Claim C10: a present-but-empty `city` parameter behaves exactly like an
absent one (the default applies to any falsy value), and the upstream, when
called, is invoked with city `"Beijing"`. -/
theorem claim10_empty_city_param (req : Request) (env : Env) (kv : KV) :
    handleFetch { req with cityParam := some "" } env kv =
      handleFetch { req with cityParam := none } env kv ∧
    (∀ key u : String, env.apiKeyGet = .ok key →
      (handleFetch { req with cityParam := some "" } env kv).2.2 = some u →
      u = weatherApiUrl "Beijing" key) := by
  constructor
  · rfl
  · intro key u hk hcall
    obtain ⟨key2, r, kv2, hkey2, heq⟩ :=
      handleFetch_call { req with cityParam := some "" } env kv u hcall
    rw [hk] at hkey2
    injection hkey2 with hkk
    subst hkk
    rw [heq, handleAllowed_upstream] at hcall
    replace hcall := Option.some_inj.1 hcall
    rw [← hcall]
    rfl

/-- Witness for C10 at a concrete input. -/
theorem claim10_empty_city_param_witness :
    handleFetch ⟨"GET", "/", some "", none, none⟩ envUpstreamOk KV.empty =
      handleFetch ⟨"GET", "/", none, none, none⟩ envUpstreamOk KV.empty ∧
    weatherApiUrl "Beijing" "APIKEY" = weatherApiUrl "Beijing" "APIKEY" := by
  have h := claim10_empty_city_param ⟨"GET", "/", none, none, none⟩ envUpstreamOk KV.empty
  exact ⟨h.1, h.2 "APIKEY" (weatherApiUrl "Beijing" "APIKEY") rfl rfl⟩

end OW
